import Mathlib

/-!
Shallow embedding of the real-time-trading backend
(`backend/real_time_trading/real_time_trading.py` and
`backend/real_time_trading/utils.py`).

Modelling conventions:
* Timestamps are integers (`Time`), read as minutes; the python
  `timedelta(minutes := m)` is integer addition of `m`.
* A last-trade price is `Option Int`: `none` models a NaN price, so
  `math.isnan(last)` is `Option.isNone`.
* The external NASDAQ calendar (`exchange_calendars`) is a parameter
  `cal : Int -> Option (Time × Time)` mapping a date to the session
  open/close bounds, `none` when the date is not a trading session;
  `dateOf : Time -> Int` extracts the date of a timestamp.
* The gap metric is an externally supplied pure function
  `gapFn : Int -> Int -> Int` of the reference baseline and the price.
* Python dicts keep insertion order, so the `self.tickers` dict is an
  insertion-ordered association list keyed by symbol.
* `list.sort(key = ...)` is a stable ascending sort by the key under a
  total preorder; a stable sort under a total preorder has a unique
  result, so `List.insertionSort` (stable) is a faithful embedding.
* Kafka publishes are collected in an output list of `OutEvent`.
-/

abbrev Time := Int

/-- A raw ticker event: symbol, last price (`none` = NaN) and event time. -/
structure RawTicker where
  symbol : String
  last : Option Int
  time : Time
deriving DecidableEq

/-- Per-symbol state (`IntradayTicker`): reference baseline, latest valid
price, derived gap metric and last-update time. -/
structure IntradayTicker where
  symbol : String
  refPrice : Int
  lastPrice : Option Int
  gap : Int
  lastTime : Time
deriving DecidableEq

/-- Modelled from the spec: `IntradayTicker.update` — the module
`intraday_ticker` is not among the repository sources.  Spec section 4.2:
the new metric is a pure function of the event price and the reference
baseline held alongside the state; the call returns true iff the new
metric differs from the stored metric (exact equality); on true the
price, metric and timestamp fields are overwritten in place; on false no
mutation is required. -/
def IntradayTicker.update (gapFn : Int → Int → Int) (t : IntradayTicker)
    (raw : RawTicker) : Bool × IntradayTicker :=
  match raw.last with
  | none => (false, t)
  | some p =>
    let g := gapFn t.refPrice p
    if g = t.gap then (false, t)
    else (true, { t with lastPrice := some p, gap := g, lastTime := raw.time })

/-- A leaderboard snapshot (`TopNSymbols`): the triggering event time and
the ordered (symbol, gap) pairs. -/
structure TopNSymbols where
  time : Time
  symbols : List (String × Int)
deriving DecidableEq

/-- `TopNSymbols.from_tickers`: build a snapshot from a ticker list. -/
def TopNSymbols.from_tickers (time : Time) (tickers : List IntradayTicker) :
    TopNSymbols :=
  ⟨time, tickers.map (fun t => (t.symbol, t.gap))⟩

/-- Modelled from the spec: `TopNSymbols` equality — the module
`top_symbol` is not among the repository sources.  Spec section 4.3: a
structural comparison, same length, same symbol at each position, same
metric at each position (the triggering time is not part of it). -/
def TopNSymbols.sameAs (a b : TopNSymbols) : Bool :=
  decide (a.symbols = b.symbols)

/-- The engine state (`RealTimeTrading.__init__`): the symbol-state
mapping in contract-list insertion order, the window/ranking
configuration, the two last-published snapshots (initialized to `none`)
and the window-bypass flag. -/
structure RealTimeTrading where
  tickers : List IntradayTicker
  bake_in_minutes : Int
  bake_out_minutes : Int
  n_top_tickers : Nat
  n_bottom_tickers : Nat
  top_n_symbols : Option TopNSymbols
  bottom_n_symbols : Option TopNSymbols
  bypass_update_window : Bool
deriving DecidableEq

/-- `utils.get_market_open_close`: `(None, None)` when the calendar says
the date is not a trading session, else the session open and close. -/
def get_market_open_close (cal : Int → Option (Time × Time))
    (dateOf : Time → Int) (dt : Time) : Option Time × Option Time :=
  match cal (dateOf dt) with
  | none => (none, none)
  | some (o, c) => (some o, some c)

/-- `RealTimeTrading.inside_update_window`: false when either bound is
`None`, else `open + bake_in <= dt < close - bake_out`. -/
def inside_update_window (cal : Int → Option (Time × Time))
    (dateOf : Time → Int) (rtt : RealTimeTrading) (dt : Time) : Bool :=
  match get_market_open_close cal dateOf dt with
  | (some o, some c) =>
    decide (o + rtt.bake_in_minutes ≤ dt ∧ dt < c - rtt.bake_out_minutes)
  | _ => false

/-- The sort key of `rank_tickers`: ascending gap. -/
def gapLE (a b : IntradayTicker) : Prop := a.gap ≤ b.gap

instance : DecidableRel gapLE := fun a b => Int.decLe a.gap b.gap

instance : IsTotal IntradayTicker gapLE := ⟨fun a b => Int.le_total a.gap b.gap⟩

instance : IsTrans IntradayTicker gapLE := ⟨fun _ _ _ => Int.le_trans⟩

/-- `RealTimeTrading.rank_tickers`: the state values in dict order,
sorted (stably) ascending by gap. -/
def rank_tickers (rtt : RealTimeTrading) : List IntradayTicker :=
  List.insertionSort gapLE rtt.tickers

/-- `RealTimeTrading.get_top_n_tickers`: keep tickers with positive gap
(in the given order), take the first n, wrap as a snapshot. -/
def get_top_n_tickers (time : Time) (tickers : List IntradayTicker)
    (n : Nat) : TopNSymbols :=
  TopNSymbols.from_tickers time
    ((tickers.filter (fun t => decide (0 < t.gap))).take n)

/-- `RealTimeTrading.get_bottom_n_tickers`: keep tickers with negative
gap (in the given order), take the first n, wrap as a snapshot. -/
def get_bottom_n_tickers (time : Time) (tickers : List IntradayTicker)
    (n : Nat) : TopNSymbols :=
  TopNSymbols.from_tickers time
    ((tickers.filter (fun t => decide (t.gap < 0))).take n)

/-- An outbound publish: the topic (TOP_HIGH_EVENT or TOP_LOW_EVENT) with
the snapshot message. -/
inductive OutEvent where
  | topHigh : TopNSymbols → OutEvent
  | topLow : TopNSymbols → OutEvent
deriving DecidableEq

/-- `RealTimeTrading._check_top_symbols`: recompute both snapshots from
the ranked tickers; for each side, if the stored snapshot is `None` or
differs from the new one, store the new snapshot and publish it (top
side first, then bottom side). -/
def check_top_symbols (rtt : RealTimeTrading) (time : Time) :
    RealTimeTrading × List OutEvent :=
  let tickers := rank_tickers rtt
  let top := get_top_n_tickers time tickers rtt.n_top_tickers
  let step1 :=
    match rtt.top_n_symbols with
    | none => ({ rtt with top_n_symbols := some top }, [OutEvent.topHigh top])
    | some old =>
      if top.sameAs old then (rtt, [])
      else ({ rtt with top_n_symbols := some top }, [OutEvent.topHigh top])
  let bot := get_bottom_n_tickers time tickers step1.1.n_bottom_tickers
  match step1.1.bottom_n_symbols with
  | none =>
    ({ step1.1 with bottom_n_symbols := some bot },
      step1.2 ++ [OutEvent.topLow bot])
  | some old =>
    if bot.sameAs old then (step1.1, step1.2)
    else
      ({ step1.1 with bottom_n_symbols := some bot },
        step1.2 ++ [OutEvent.topLow bot])

/-- Dict lookup `self.tickers.get(symbol)`. -/
def findTicker (tickers : List IntradayTicker) (symbol : String) :
    Option IntradayTicker :=
  tickers.find? (fun t => decide (t.symbol = symbol))

/-- Dict write-back of a mutated ticker: replace the entry with the same
symbol, keeping its position (python mutates the object in place). -/
def setTicker : List IntradayTicker → IntradayTicker → List IntradayTicker
  | [], _ => []
  | t :: ts, u => if t.symbol = u.symbol then u :: ts else t :: setTicker ts u

/-- The outcome of one `_consume` call, distinguishing which filter
discarded the event (the code logs a distinct message for each). -/
inductive ConsumeResult where
  | rejectedWindow
  | rejectedNan
  | rejectedUnknown
  | notUpdated
  | updated
deriving DecidableEq

/-- `RealTimeTrading._consume`: the per-event pipeline as implemented —
window filter (unless bypassed), then NaN filter, then universe filter,
then `update`; on a reported change, recompute and publish via
`check_top_symbols`.  A total function: no rejection raises. -/
def consume (cal : Int → Option (Time × Time)) (dateOf : Time → Int)
    (gapFn : Int → Int → Int) (rtt : RealTimeTrading) (raw : RawTicker) :
    ConsumeResult × RealTimeTrading × List OutEvent :=
  if !rtt.bypass_update_window && !inside_update_window cal dateOf rtt raw.time then
    (ConsumeResult.rejectedWindow, rtt, [])
  else if raw.last.isNone then
    (ConsumeResult.rejectedNan, rtt, [])
  else
    match findTicker rtt.tickers raw.symbol with
    | none => (ConsumeResult.rejectedUnknown, rtt, [])
    | some t =>
      match IntradayTicker.update gapFn t raw with
      | (false, _) => (ConsumeResult.notUpdated, rtt, [])
      | (true, u) =>
        let rtt1 := { rtt with tickers := setTicker rtt.tickers u }
        let out := check_top_symbols rtt1 raw.time
        (ConsumeResult.updated, out.1, out.2)

/-- The per-event pipeline in the order the spec words it (section 4.4):
NaN filter first, then window filter, then universe filter.  Defined
only to compare against the order `consume` implements. -/
def consume_spec_order (cal : Int → Option (Time × Time))
    (dateOf : Time → Int) (gapFn : Int → Int → Int)
    (rtt : RealTimeTrading) (raw : RawTicker) :
    ConsumeResult × RealTimeTrading × List OutEvent :=
  if raw.last.isNone then
    (ConsumeResult.rejectedNan, rtt, [])
  else if !rtt.bypass_update_window && !inside_update_window cal dateOf rtt raw.time then
    (ConsumeResult.rejectedWindow, rtt, [])
  else
    match findTicker rtt.tickers raw.symbol with
    | none => (ConsumeResult.rejectedUnknown, rtt, [])
    | some t =>
      match IntradayTicker.update gapFn t raw with
      | (false, _) => (ConsumeResult.notUpdated, rtt, [])
      | (true, u) =>
        let rtt1 := { rtt with tickers := setTicker rtt.tickers u }
        let out := check_top_symbols rtt1 raw.time
        (ConsumeResult.updated, out.1, out.2)

/-- Whether a freshly computed snapshot counts as changed against the
stored last-published snapshot of its side: a missing stored snapshot
always counts as changed (`self.top_n_symbols is None or ... != ...`). -/
def snapshotChanged (old : Option TopNSymbols) (new : TopNSymbols) : Bool :=
  match old with
  | none => true
  | some o => !(new.sameAs o)

/-- The bottom-side snapshot as the spec words it: filter the states to
negative metric, sort ascending by metric, take the first n. -/
def bottomN_spec (time : Time) (tickers : List IntradayTicker) (n : Nat) :
    TopNSymbols :=
  TopNSymbols.from_tickers time
    ((List.insertionSort gapLE
      (tickers.filter (fun t => decide (t.gap < 0)))).take n)

/-- The top-side snapshot as the spec words it: filter the states to
positive metric, sort descending by metric, take the first n. -/
def topN_spec (time : Time) (tickers : List IntradayTicker) (n : Nat) :
    TopNSymbols :=
  TopNSymbols.from_tickers time
    ((List.insertionSort (fun a b => gapLE b a)
      (tickers.filter (fun t => decide (0 < t.gap)))).take n)

/-! Embedding of `utils.set_offsets_by_time` (the OffsetSeeker). -/

/-- A kafka consumer handle: subscribed topics, broker metadata mapping a
topic to its partition ids, and the current read cursor per partition. -/
structure KConsumer where
  subscription : List String
  topic_partitions : List (String × List Nat)
  positions : List ((String × Nat) × Int)
deriving DecidableEq

/-- `consumer.partitions_for_topic(t)`. -/
def partitions_for_topic (c : KConsumer) (t : String) : Option (List Nat) :=
  (c.topic_partitions.find? (fun x => decide (x.1 = t))).map (fun x => x.2)

/-- `consumer.seek(partition, offset)`: reposition the read cursor. -/
def seek (c : KConsumer) (tp : String × Nat) (off : Int) : KConsumer :=
  { c with positions := c.positions.map (fun x => if x.1 = tp then (tp, off) else x) }

/-- The `for partition, ts in mapping.items()` loop of
`set_offsets_by_time`.  `broker` models `offsets_for_times`: the offset
of the first event at or after the timestamp, `none` when the partition
has no such event (kafka returns None in the mapping for it).  On
`none` the python body evaluates `ts[0]` and raises TypeError; the error
carries the partially seeked consumer. -/
def seek_loop (broker : String × Nat → Int → Option Int) (start_time : Int) :
    KConsumer → List (String × Nat) → Except (String × KConsumer) KConsumer
  | c, [] => Except.ok c
  | c, tp :: rest =>
    match broker tp start_time with
    | none => Except.error ("TypeError: NoneType object is not subscriptable", c)
    | some off => seek_loop broker start_time (seek c tp off) rest

/-- `utils.set_offsets_by_time`: return untouched when the subscription
is empty, else collect every partition of every subscribed topic (in
order, skipping topics with unknown metadata) and run the seek loop. -/
def set_offsets_by_time (broker : String × Nat → Int → Option Int)
    (c : KConsumer) (start_time : Int) :
    Except (String × KConsumer) KConsumer :=
  if c.subscription.isEmpty then Except.ok c
  else
    let partitions := c.subscription.foldl (fun acc t =>
      match partitions_for_topic c t with
      | none => acc
      | some ps => acc ++ ps.map (fun p => (t, p))) []
    seek_loop broker start_time c partitions

/-! Concrete instances used to evaluate the definitions. -/

/-- A concrete calendar: date 0 is a session open 570..960, every other
date is not a trading session. -/
def cal0 : Int → Option (Time × Time) :=
  fun d => if d = 0 then some (570, 960) else none

/-- A concrete date extraction: 1440 minutes per day. -/
def dateOf0 : Time → Int := fun t => t / 1440

/-- A concrete gap function: price minus reference baseline. -/
def gapFn0 : Int → Int → Int := fun r p => p - r

/-- A fresh per-symbol state with reference baseline 0 and gap 0. -/
def mkTicker (s : String) : IntradayTicker := ⟨s, 0, none, 0, 0⟩

/-- The engine of the spec scenario: universe {A, B, C}, top-2 and
bottom-2, window bypassed. -/
def engineABC : RealTimeTrading :=
  ⟨[mkTicker "A", mkTicker "B", mkTicker "C"], 0, 0, 2, 2, none, none, true⟩

def rawA : RawTicker := ⟨"A", some 5, 1⟩

def rawB : RawTicker := ⟨"B", some 3, 2⟩

def rawC : RawTicker := ⟨"C", some 7, 3⟩

/-- The engine state after feeding the scenario events A then B then C. -/
def scenarioFinal : RealTimeTrading :=
  (consume cal0 dateOf0 gapFn0
    (consume cal0 dateOf0 gapFn0
      (consume cal0 dateOf0 gapFn0 engineABC rawA).2.1 rawB).2.1 rawC).2.1

/-- A one-symbol engine with the window bypassed. -/
def engineA : RealTimeTrading :=
  ⟨[mkTicker "A"], 0, 0, 2, 2, none, none, true⟩

/-- A one-symbol engine with window filtering active. -/
def engineW : RealTimeTrading :=
  ⟨[mkTicker "A"], 0, 0, 2, 2, none, none, false⟩

/-- A NaN-price event far outside the session window. -/
def rawNan : RawTicker := ⟨"A", none, 5000⟩

/-- A concrete consumer: one topic with one partition whose cursor is 7. -/
def cns0 : KConsumer := ⟨["raw"], [("raw", [0])], [(("raw", 0), 7)]⟩

/-- A broker with no event at or after any timestamp. -/
def brokerNone : String × Nat → Int → Option Int := fun _ _ => none

/-- A broker whose first event at or after any timestamp is offset 42. -/
def broker42 : String × Nat → Int → Option Int := fun _ _ => some 42

/-- The state of ticker A after absorbing `rawA` (price 5, gap 5). -/
def tickerA5 : IntradayTicker := ⟨"A", 0, some 5, 5, 1⟩

/-- An event driving the gap of A negative. -/
def rawNeg : RawTicker := ⟨"A", some (-5), 1⟩

/-- The state of ticker A after absorbing `rawNeg` (price -5, gap -5). -/
def tickerANeg : IntradayTicker := ⟨"A", 0, some (-5), -5, 1⟩

/-- An engine holding two distinct symbols with equal positive gaps. -/
def engineEq : RealTimeTrading :=
  ⟨[⟨"A", 0, none, 2, 0⟩, ⟨"B", 0, none, 2, 0⟩], 0, 0, 2, 2, none, none, true⟩

/-- An unknown-symbol event. -/
def rawZ : RawTicker := ⟨"Z", some 1, 1⟩

/-- An engine holding one positive-gap and two negative-gap symbols. -/
def engineMix : RealTimeTrading :=
  ⟨[⟨"A", 0, none, 3, 0⟩, ⟨"B", 0, none, -2, 0⟩, ⟨"C", 0, none, -7, 0⟩],
    0, 0, 2, 2, none, none, true⟩

/-! Helper lemmas. -/

lemma window_pass {rtt : RealTimeTrading} {cal : Int → Option (Time × Time)}
    {dateOf : Time → Int} {dt : Time}
    (h : rtt.bypass_update_window = true ∨
      inside_update_window cal dateOf rtt dt = true) :
    (!rtt.bypass_update_window && !inside_update_window cal dateOf rtt dt) = false := by
  rcases h with h | h <;> simp [h]

lemma update_true_elim {gapFn : Int → Int → Int} {t u : IntradayTicker}
    {raw : RawTicker} (h : IntradayTicker.update gapFn t raw = (true, u)) :
    ∃ p, raw.last = some p ∧ gapFn t.refPrice p ≠ t.gap ∧
      u = { t with lastPrice := some p, gap := gapFn t.refPrice p,
                   lastTime := raw.time } := by
  rcases hl : raw.last with _ | p
  · simp only [IntradayTicker.update, hl] at h
    exact absurd (congrArg Prod.fst h) (by simp)
  · simp only [IntradayTicker.update, hl] at h
    by_cases hg : gapFn t.refPrice p = t.gap
    · rw [if_pos hg] at h
      exact absurd (congrArg Prod.fst h) (by simp)
    · rw [if_neg hg] at h
      exact ⟨p, rfl, hg, (congrArg Prod.snd h).symm⟩

lemma findTicker_symbol {l : List IntradayTicker} {s : String}
    {t : IntradayTicker} (h : findTicker l s = some t) : t.symbol = s := by
  rw [findTicker] at h
  have h2 := List.find?_some h
  simpa using h2

lemma findTicker_setTicker {l : List IntradayTicker} {s : String}
    {t u : IntradayTicker} (h : findTicker l s = some t)
    (hu : u.symbol = t.symbol) :
    findTicker (setTicker l u) s = some u := by
  have hus : u.symbol = s := by rw [hu, findTicker_symbol h]
  induction l with
  | nil => simp [findTicker] at h
  | cons a l ih =>
    by_cases ha : a.symbol = s
    · simp only [setTicker]
      rw [if_pos (by rw [hus]; exact ha), findTicker,
        List.find?_cons_of_pos _ (by simp [hus])]
    · rw [findTicker, List.find?_cons_of_neg _ (by simp [ha])] at h
      simp only [setTicker]
      rw [if_neg (by rw [hus]; exact ha), findTicker,
        List.find?_cons_of_neg _ (by simp [ha])]
      exact ih h

lemma check_top_symbols_eq (rtt : RealTimeTrading) (time : Time) :
    check_top_symbols rtt time =
      ({ rtt with
          top_n_symbols :=
            if snapshotChanged rtt.top_n_symbols
                (get_top_n_tickers time (rank_tickers rtt) rtt.n_top_tickers) then
              some (get_top_n_tickers time (rank_tickers rtt) rtt.n_top_tickers)
            else rtt.top_n_symbols,
          bottom_n_symbols :=
            if snapshotChanged rtt.bottom_n_symbols
                (get_bottom_n_tickers time (rank_tickers rtt) rtt.n_bottom_tickers) then
              some (get_bottom_n_tickers time (rank_tickers rtt) rtt.n_bottom_tickers)
            else rtt.bottom_n_symbols },
        (if snapshotChanged rtt.top_n_symbols
            (get_top_n_tickers time (rank_tickers rtt) rtt.n_top_tickers) then
          [OutEvent.topHigh (get_top_n_tickers time (rank_tickers rtt) rtt.n_top_tickers)]
        else []) ++
        (if snapshotChanged rtt.bottom_n_symbols
            (get_bottom_n_tickers time (rank_tickers rtt) rtt.n_bottom_tickers) then
          [OutEvent.topLow (get_bottom_n_tickers time (rank_tickers rtt) rtt.n_bottom_tickers)]
        else [])) := by
  rcases hT : rtt.top_n_symbols with _ | oT <;>
    rcases hB : rtt.bottom_n_symbols with _ | oB <;>
      simp only [check_top_symbols, snapshotChanged, hT, hB]
  · rfl
  · by_cases hb : (get_bottom_n_tickers time (rank_tickers rtt) rtt.n_bottom_tickers).sameAs oB <;>
      simp [hb, hT, hB]
  · by_cases ht : (get_top_n_tickers time (rank_tickers rtt) rtt.n_top_tickers).sameAs oT <;>
      simp [ht, hT, hB]
  · by_cases ht : (get_top_n_tickers time (rank_tickers rtt) rtt.n_top_tickers).sameAs oT <;>
      by_cases hb : (get_bottom_n_tickers time (rank_tickers rtt) rtt.n_bottom_tickers).sameAs oB <;>
        simp [ht, hb, hT, hB]
    rw [← hT, ← hB]

lemma consume_window_reject {cal : Int → Option (Time × Time)}
    {dateOf : Time → Int} {gapFn : Int → Int → Int} {rtt : RealTimeTrading}
    {raw : RawTicker} (hb : rtt.bypass_update_window = false)
    (hw : inside_update_window cal dateOf rtt raw.time = false) :
    consume cal dateOf gapFn rtt raw = (ConsumeResult.rejectedWindow, rtt, []) := by
  simp [consume, hb, hw]

lemma consume_nan_reject {cal : Int → Option (Time × Time)}
    {dateOf : Time → Int} {gapFn : Int → Int → Int} {rtt : RealTimeTrading}
    {raw : RawTicker}
    (hwin : rtt.bypass_update_window = true ∨
      inside_update_window cal dateOf rtt raw.time = true)
    (hl : raw.last = none) :
    consume cal dateOf gapFn rtt raw = (ConsumeResult.rejectedNan, rtt, []) := by
  simp [consume, window_pass hwin, hl]

lemma consume_unknown_reject {cal : Int → Option (Time × Time)}
    {dateOf : Time → Int} {gapFn : Int → Int → Int} {rtt : RealTimeTrading}
    {raw : RawTicker}
    (hwin : rtt.bypass_update_window = true ∨
      inside_update_window cal dateOf rtt raw.time = true)
    (hsome : raw.last.isSome = true)
    (hfind : findTicker rtt.tickers raw.symbol = none) :
    consume cal dateOf gapFn rtt raw = (ConsumeResult.rejectedUnknown, rtt, []) := by
  rcases hl : raw.last with _ | p
  · rw [hl] at hsome
    simp at hsome
  · simp [consume, window_pass hwin, hl, hfind]

lemma consume_accepted_updated {cal : Int → Option (Time × Time)}
    {dateOf : Time → Int} {gapFn : Int → Int → Int} {rtt : RealTimeTrading}
    {raw : RawTicker} {t u : IntradayTicker}
    (hwin : rtt.bypass_update_window = true ∨
      inside_update_window cal dateOf rtt raw.time = true)
    (hfind : findTicker rtt.tickers raw.symbol = some t)
    (hupd : IntradayTicker.update gapFn t raw = (true, u)) :
    consume cal dateOf gapFn rtt raw =
      (ConsumeResult.updated,
        check_top_symbols { rtt with tickers := setTicker rtt.tickers u } raw.time) := by
  obtain ⟨p, hl, -, -⟩ := update_true_elim hupd
  simp [consume, window_pass hwin, hl, hfind, hupd]

lemma consume_accepted_notUpdated {cal : Int → Option (Time × Time)}
    {dateOf : Time → Int} {gapFn : Int → Int → Int} {rtt : RealTimeTrading}
    {raw : RawTicker} {t : IntradayTicker}
    (hwin : rtt.bypass_update_window = true ∨
      inside_update_window cal dateOf rtt raw.time = true)
    (hfind : findTicker rtt.tickers raw.symbol = some t)
    (hupd : (IntradayTicker.update gapFn t raw).1 = false)
    (hsome : raw.last.isSome = true) :
    consume cal dateOf gapFn rtt raw = (ConsumeResult.notUpdated, rtt, []) := by
  rcases hl : raw.last with _ | p
  · rw [hl] at hsome
    simp at hsome
  · rcases hu : IntradayTicker.update gapFn t raw with ⟨b, v⟩
    rw [hu] at hupd
    simp only at hupd
    subst hupd
    simp [consume, window_pass hwin, hl, hfind, hu]

lemma orderedInsert_all_le {a : IntradayTicker} {s : List IntradayTicker}
    (h : ∀ x ∈ s, gapLE a x) : List.orderedInsert gapLE a s = a :: s := by
  cases s with
  | nil => rfl
  | cons b t =>
    simp only [List.orderedInsert]
    rw [if_pos (h b (List.mem_cons_self b t))]

lemma filter_orderedInsert (p : IntradayTicker → Bool) (a : IntradayTicker) :
    ∀ s : List IntradayTicker, List.Sorted gapLE s →
      (List.orderedInsert gapLE a s).filter p =
        if p a then List.orderedInsert gapLE a (s.filter p) else s.filter p
  | [], _ => by
    by_cases hp : p a <;> simp [List.orderedInsert, hp]
  | b :: t, hs => by
    by_cases hab : gapLE a b
    · simp only [List.orderedInsert, if_pos hab]
      by_cases hp : p a
      · rw [List.filter_cons_of_pos hp,
          orderedInsert_all_le (fun x hx => ?_), if_pos hp]
        rcases List.mem_cons.mp (List.mem_of_mem_filter hx) with h1 | h1
        · exact h1 ▸ hab
        · exact Trans.trans hab (List.rel_of_sorted_cons hs x h1)
      · rw [List.filter_cons_of_neg hp, if_neg hp]
    · simp only [List.orderedInsert, if_neg hab]
      have IH := filter_orderedInsert p a t hs.of_cons
      by_cases hpb : p b
      · rw [List.filter_cons_of_pos hpb, List.filter_cons_of_pos hpb, IH]
        by_cases hp : p a
        · rw [if_pos hp, if_pos hp]
          simp only [List.orderedInsert, if_neg hab]
        · rw [if_neg hp, if_neg hp]
      · rw [List.filter_cons_of_neg hpb, List.filter_cons_of_neg hpb, IH]

lemma filter_insertionSort (p : IntradayTicker → Bool) :
    ∀ l : List IntradayTicker,
      (List.insertionSort gapLE l).filter p =
        List.insertionSort gapLE (l.filter p)
  | [] => rfl
  | a :: l => by
    simp only [List.insertionSort]
    rw [filter_orderedInsert p a _ (List.sorted_insertionSort gapLE l),
      filter_insertionSort p l, List.filter_cons]
    by_cases hp : p a <;> simp [hp, List.insertionSort]

lemma pair_sublist_take {α : Type} {a b : α} :
    ∀ {l : List α} {n : Nat}, l.Nodup → [a, b].Sublist l → b ∈ l.take n →
      [a, b].Sublist (l.take n)
  | [], _, _, hab, _ => by simp at hab
  | _ :: _, 0, _, _, hb => by simp at hb
  | c :: l, n + 1, hnd, hab, hb => by
    rw [List.take_succ_cons] at hb ⊢
    cases hab with
    | cons _ h =>
      have hbl : b ∈ l := h.subset (by simp)
      have hb2 : b ∈ l.take n := by
        rcases List.mem_cons.mp hb with h1 | h1
        · subst h1
          exact absurd hbl (List.nodup_cons.mp hnd).1
        · exact h1
      exact List.Sublist.cons _ (pair_sublist_take (List.nodup_cons.mp hnd).2 h hb2)
    | cons₂ _ h =>
      have hbl : b ∈ l := List.singleton_sublist.mp h
      have hb2 : b ∈ l.take n := by
        rcases List.mem_cons.mp hb with h1 | h1
        · subst h1
          exact absurd hbl (List.nodup_cons.mp hnd).1
        · exact h1
      exact List.Sublist.cons₂ _ (List.singleton_sublist.mpr hb2)

/-! Claim theorems. -/

/-- C1.  The claim says the top-side snapshot is the positive-gap states
sorted descending by metric, truncated to n, and that the spec scenario
(gaps A +5, B +3, C +7, n_top = 2) publishes [(C,7),(A,5)].  The code
disagrees: `rank_tickers` sorts ascending and `get_top_n_tickers` keeps
the first n positive entries of that ascending list, i.e. the n smallest
positive gaps — contradicting the method docstring "Return top n tickers
by gap".  After the three scenario events the stored top snapshot is
[(B,3),(A,5)] (published at the B event; the C event changes nothing and
publishes nothing), while the spec-worded `topN_spec` yields
[(C,7),(A,5)]. -/
theorem top_side_scenario_eval :
    scenarioFinal.top_n_symbols = some ⟨2, [("B", 3), ("A", 5)]⟩ ∧
    get_top_n_tickers 3 (rank_tickers scenarioFinal) 2 =
      ⟨3, [("B", 3), ("A", 5)]⟩ ∧
    topN_spec 3 scenarioFinal.tickers 2 = ⟨3, [("C", 7), ("A", 5)]⟩ ∧
    ([("B", 3), ("A", 5)] : List (String × Int)) ≠ [("C", 7), ("A", 5)] := by
  decide

/-- C3 counterexample.  The claim orders the filters NaN-first, then
window, then universe; the code checks the window first.  On a NaN-price
event outside the session window (bypass disabled) the code rejects it
as outside-window, whereas the claimed order would reject it as NaN. -/
theorem filter_order_counterexample :
    (consume cal0 dateOf0 gapFn0 engineW rawNan).1 =
      ConsumeResult.rejectedWindow ∧
    (consume_spec_order cal0 dateOf0 gapFn0 engineW rawNan).1 =
      ConsumeResult.rejectedNan ∧
    ConsumeResult.rejectedWindow ≠ ConsumeResult.rejectedNan := by
  decide

/-- C5 counterexample.  Feeding the same valid event twice from a fresh
engine produces two publish events, not exactly one: the first call
publishes both the top-side and the bottom-side snapshot (stored
snapshots start as `none`), the second call publishes nothing. -/
theorem double_feed_counterexample :
    (consume cal0 dateOf0 gapFn0 engineA rawA).2.2.length +
      (consume cal0 dateOf0 gapFn0
        (consume cal0 dateOf0 gapFn0 engineA rawA).2.1 rawA).2.2.length = 2 ∧
    ¬((consume cal0 dateOf0 gapFn0 engineA rawA).2.2.length +
      (consume cal0 dateOf0 gapFn0
        (consume cal0 dateOf0 gapFn0 engineA rawA).2.1 rawA).2.2.length = 1) := by
  decide

/-- C8.  `set_offsets_by_time` on a consumer whose single subscribed
partition has no event at or after the timestamp: `offsets_for_times`
returns None for the partition, the loop body evaluates `ts[0]` and
raises TypeError — the partition is not "left unseeked without raising"
as the claim states.  When the lookup succeeds the cursor is repositioned
to the first event at or after the timestamp (second conjunct). -/
theorem seek_missing_event_eval :
    set_offsets_by_time brokerNone cns0 0 =
      Except.error ("TypeError: NoneType object is not subscriptable", cns0) ∧
    set_offsets_by_time broker42 cns0 0 =
      Except.ok ⟨["raw"], [("raw", [0])], [(("raw", 0), 42)]⟩ :=
  ⟨rfl, rfl⟩

/-- C2.  On an accepted event whose update reports a change, `consume`
recomputes both snapshots via `check_top_symbols`; for each side
independently, exactly one change event is published and the stored
snapshot replaced iff the new snapshot differs from the last-published
snapshot of that side (a never-published side counts as differing); an
unchanged side emits no event and keeps its stored snapshot; the
top-side event precedes the bottom-side event; the symbol states are
untouched by the publish step. -/
theorem check_top_symbols_contract (cal : Int → Option (Time × Time))
    (dateOf : Time → Int) (gapFn : Int → Int → Int)
    (rtt : RealTimeTrading) (raw : RawTicker) (time : Time) :
    (∀ t u, (rtt.bypass_update_window = true ∨
        inside_update_window cal dateOf rtt raw.time = true) →
      findTicker rtt.tickers raw.symbol = some t →
      IntradayTicker.update gapFn t raw = (true, u) →
      consume cal dateOf gapFn rtt raw =
        (ConsumeResult.updated,
          check_top_symbols { rtt with tickers := setTicker rtt.tickers u }
            raw.time)) ∧
    check_top_symbols rtt time =
      ({ rtt with
          top_n_symbols :=
            if snapshotChanged rtt.top_n_symbols
                (get_top_n_tickers time (rank_tickers rtt) rtt.n_top_tickers) then
              some (get_top_n_tickers time (rank_tickers rtt) rtt.n_top_tickers)
            else rtt.top_n_symbols,
          bottom_n_symbols :=
            if snapshotChanged rtt.bottom_n_symbols
                (get_bottom_n_tickers time (rank_tickers rtt)
                  rtt.n_bottom_tickers) then
              some (get_bottom_n_tickers time (rank_tickers rtt)
                rtt.n_bottom_tickers)
            else rtt.bottom_n_symbols },
        (if snapshotChanged rtt.top_n_symbols
            (get_top_n_tickers time (rank_tickers rtt) rtt.n_top_tickers) then
          [OutEvent.topHigh
            (get_top_n_tickers time (rank_tickers rtt) rtt.n_top_tickers)]
        else []) ++
        (if snapshotChanged rtt.bottom_n_symbols
            (get_bottom_n_tickers time (rank_tickers rtt)
              rtt.n_bottom_tickers) then
          [OutEvent.topLow
            (get_bottom_n_tickers time (rank_tickers rtt)
              rtt.n_bottom_tickers)]
        else [])) :=
  ⟨fun _ _ hwin hfind hupd => consume_accepted_updated hwin hfind hupd,
    check_top_symbols_eq rtt time⟩

/-- C2 witness: a concrete accepted changing event routes through
`check_top_symbols` on the updated state. -/
theorem check_top_symbols_contract_witness :
    consume cal0 dateOf0 gapFn0 engineA rawA =
      (ConsumeResult.updated,
        check_top_symbols
          { engineA with tickers := setTicker engineA.tickers tickerA5 }
          rawA.time) :=
  (check_top_symbols_contract cal0 dateOf0 gapFn0 engineA rawA 0).1
    (mkTicker "A") tickerA5 (Or.inl rfl) (by decide) (by decide)

/-- C3 amended.  The implemented filter order is window first, then NaN,
then universe; each failing filter discards the event, leaving the
engine state unchanged and emitting nothing, and `consume` is a total
function (no rejection escapes it). -/
theorem consume_filter_order (cal : Int → Option (Time × Time))
    (dateOf : Time → Int) (gapFn : Int → Int → Int)
    (rtt : RealTimeTrading) (raw : RawTicker) :
    (rtt.bypass_update_window = false →
      inside_update_window cal dateOf rtt raw.time = false →
      consume cal dateOf gapFn rtt raw =
        (ConsumeResult.rejectedWindow, rtt, [])) ∧
    ((rtt.bypass_update_window = true ∨
        inside_update_window cal dateOf rtt raw.time = true) →
      raw.last = none →
      consume cal dateOf gapFn rtt raw =
        (ConsumeResult.rejectedNan, rtt, [])) ∧
    ((rtt.bypass_update_window = true ∨
        inside_update_window cal dateOf rtt raw.time = true) →
      raw.last.isSome = true →
      findTicker rtt.tickers raw.symbol = none →
      consume cal dateOf gapFn rtt raw =
        (ConsumeResult.rejectedUnknown, rtt, [])) :=
  ⟨fun hb hw => consume_window_reject hb hw,
    fun hwin hl => consume_nan_reject hwin hl,
    fun hwin hsome hfind => consume_unknown_reject hwin hsome hfind⟩

/-- C3 witness: a window rejection on a concrete engine and event. -/
theorem consume_filter_order_witness :
    consume cal0 dateOf0 gapFn0 engineW rawNan =
      (ConsumeResult.rejectedWindow, engineW, []) :=
  (consume_filter_order cal0 dateOf0 gapFn0 engineW rawNan).1 rfl (by decide)

/-- C4.  Any event rejected by a filter — NaN price, outside the window
with bypass disabled, or unknown symbol — leaves the whole engine state
(symbol states and stored snapshots) unchanged, publishes nothing, and
is reported as a rejection, not an update; `consume` is total, so no
error escapes. -/
theorem rejected_event_frame (cal : Int → Option (Time × Time))
    (dateOf : Time → Int) (gapFn : Int → Int → Int)
    (rtt : RealTimeTrading) (raw : RawTicker)
    (h : raw.last = none ∨
      (rtt.bypass_update_window = false ∧
        inside_update_window cal dateOf rtt raw.time = false) ∨
      findTicker rtt.tickers raw.symbol = none) :
    (consume cal dateOf gapFn rtt raw).2.1 = rtt ∧
    (consume cal dateOf gapFn rtt raw).2.2 = [] ∧
    ((consume cal dateOf gapFn rtt raw).1 = ConsumeResult.rejectedWindow ∨
      (consume cal dateOf gapFn rtt raw).1 = ConsumeResult.rejectedNan ∨
      (consume cal dateOf gapFn rtt raw).1 = ConsumeResult.rejectedUnknown) := by
  by_cases hby : rtt.bypass_update_window = true ∨
      inside_update_window cal dateOf rtt raw.time = true
  · rcases h with hl | ⟨hb, hw⟩ | hfind
    · rw [consume_nan_reject hby hl]
      exact ⟨rfl, rfl, Or.inr (Or.inl rfl)⟩
    · rcases hby with hby | hby
      · rw [hb] at hby
        exact absurd hby (by simp)
      · rw [hw] at hby
        exact absurd hby (by simp)
    · rcases hl : raw.last with _ | p
      · rw [consume_nan_reject hby hl]
        exact ⟨rfl, rfl, Or.inr (Or.inl rfl)⟩
      · rw [consume_unknown_reject hby (by rw [hl]; rfl) hfind]
        exact ⟨rfl, rfl, Or.inr (Or.inr rfl)⟩
  · push_neg at hby
    obtain ⟨hb, hw⟩ := hby
    rw [consume_window_reject (by simpa using hb) (by simpa using hw)]
    exact ⟨rfl, rfl, Or.inl rfl⟩

/-- C4 witness: an unknown-symbol event leaves the engine untouched. -/
theorem rejected_event_frame_witness :
    (consume cal0 dateOf0 gapFn0 engineA rawZ).2.1 = engineA ∧
    (consume cal0 dateOf0 gapFn0 engineA rawZ).2.2 = [] ∧
    ((consume cal0 dateOf0 gapFn0 engineA rawZ).1 =
        ConsumeResult.rejectedWindow ∨
      (consume cal0 dateOf0 gapFn0 engineA rawZ).1 =
        ConsumeResult.rejectedNan ∨
      (consume cal0 dateOf0 gapFn0 engineA rawZ).1 =
        ConsumeResult.rejectedUnknown) :=
  rejected_event_frame cal0 dateOf0 gapFn0 engineA rawZ
    (Or.inr (Or.inr (by decide)))

/-- C5 amended.  If `update` reports no change on an accepted event,
`consume` stops: no ranking recompute, no publish, engine unchanged.
Consequently feeding the same valid event twice in immediate succession
publishes nothing on the second call and leaves the state of the first
call untouched (the first call itself may publish zero, one or two
events — one per changed side — not always exactly one). -/
theorem no_change_no_publish (cal : Int → Option (Time × Time))
    (dateOf : Time → Int) (gapFn : Int → Int → Int)
    (rtt : RealTimeTrading) (raw : RawTicker) (t : IntradayTicker)
    (hwin : rtt.bypass_update_window = true ∨
      inside_update_window cal dateOf rtt raw.time = true)
    (hfind : findTicker rtt.tickers raw.symbol = some t)
    (hsome : raw.last.isSome = true) :
    ((IntradayTicker.update gapFn t raw).1 = false →
      consume cal dateOf gapFn rtt raw = (ConsumeResult.notUpdated, rtt, [])) ∧
    consume cal dateOf gapFn (consume cal dateOf gapFn rtt raw).2.1 raw =
      (ConsumeResult.notUpdated, (consume cal dateOf gapFn rtt raw).2.1, []) := by
  constructor
  · intro hfalse
    exact consume_accepted_notUpdated hwin hfind hfalse hsome
  · rcases hu : IntradayTicker.update gapFn t raw with ⟨b, v⟩
    cases b with
    | false =>
      rw [consume_accepted_notUpdated hwin hfind (by rw [hu]) hsome]
      exact consume_accepted_notUpdated hwin hfind (by rw [hu]) hsome
    | true =>
      obtain ⟨p2, hl2, hne, hv⟩ := update_true_elim hu
      rw [consume_accepted_updated hwin hfind hu, check_top_symbols_eq]
      refine consume_accepted_notUpdated hwin
        (findTicker_setTicker hfind (by rw [hv])) ?_ hsome
      rw [hv]
      simp [IntradayTicker.update, hl2]

/-- C5 witness: the second feed of the same event is a no-op. -/
theorem no_change_no_publish_witness :
    consume cal0 dateOf0 gapFn0 (consume cal0 dateOf0 gapFn0 engineA rawA).2.1
        rawA =
      (ConsumeResult.notUpdated,
        (consume cal0 dateOf0 gapFn0 engineA rawA).2.1, []) :=
  (no_change_no_publish cal0 dateOf0 gapFn0 engineA rawA (mkTicker "A")
    (Or.inl rfl) (by decide) (by decide)).2

/-- C6.  `inside_update_window` is true exactly when the calendar yields
session bounds (open, close) for the date of the timestamp and
open + bake_in <= t < close - bake_out (half-open); on a non-session
date the bounds are (none, none) and the window test is false for every
timestamp of that date, whatever the bake configuration. -/
theorem inside_update_window_iff (cal : Int → Option (Time × Time))
    (dateOf : Time → Int) (rtt : RealTimeTrading) :
    (∀ dt, inside_update_window cal dateOf rtt dt = true ↔
      ∃ o c, get_market_open_close cal dateOf dt = (some o, some c) ∧
        o + rtt.bake_in_minutes ≤ dt ∧ dt < c - rtt.bake_out_minutes) ∧
    (∀ dt, cal (dateOf dt) = none →
      get_market_open_close cal dateOf dt = (none, none) ∧
      inside_update_window cal dateOf rtt dt = false) := by
  constructor
  · intro dt
    rcases hc : cal (dateOf dt) with _ | ⟨o, c⟩
    · simp [inside_update_window, get_market_open_close, hc]
    · simp only [inside_update_window, get_market_open_close, hc,
        decide_eq_true_eq, Prod.mk.injEq, Option.some.injEq]
      constructor
      · exact fun h => ⟨o, c, ⟨rfl, rfl⟩, h⟩
      · rintro ⟨o2, c2, ⟨rfl, rfl⟩, h⟩
        exact h
  · intro dt hnone
    simp [inside_update_window, get_market_open_close, hnone]

/-- C6 witness: a timestamp inside the concrete session window passes,
and one on a non-session date fails. -/
theorem inside_update_window_iff_witness :
    inside_update_window cal0 dateOf0 engineW 600 = true ∧
    inside_update_window cal0 dateOf0 engineW 2000 = false :=
  ⟨((inside_update_window_iff cal0 dateOf0 engineW).1 600).mpr
      ⟨570, 960, rfl, by decide, by decide⟩,
    ((inside_update_window_iff cal0 dateOf0 engineW).2 2000 rfl).2⟩

/-- C9.  On an accepted changing event arriving while both stored
snapshots are still `none` (no publish has happened yet), the engine
publishes both sides unconditionally — the top-side event then the
bottom-side event — whatever the snapshot contents (even empty). -/
theorem first_change_publishes_both_sides (cal : Int → Option (Time × Time))
    (dateOf : Time → Int) (gapFn : Int → Int → Int)
    (rtt : RealTimeTrading) (raw : RawTicker) (t u : IntradayTicker)
    (htop : rtt.top_n_symbols = none) (hbot : rtt.bottom_n_symbols = none)
    (hwin : rtt.bypass_update_window = true ∨
      inside_update_window cal dateOf rtt raw.time = true)
    (hfind : findTicker rtt.tickers raw.symbol = some t)
    (hupd : IntradayTicker.update gapFn t raw = (true, u)) :
    (consume cal dateOf gapFn rtt raw).2.2 =
      [OutEvent.topHigh (get_top_n_tickers raw.time
          (rank_tickers { rtt with tickers := setTicker rtt.tickers u })
          rtt.n_top_tickers),
        OutEvent.topLow (get_bottom_n_tickers raw.time
          (rank_tickers { rtt with tickers := setTicker rtt.tickers u })
          rtt.n_bottom_tickers)] := by
  rw [consume_accepted_updated hwin hfind hupd]
  simp [check_top_symbols_eq, snapshotChanged, htop, hbot]

/-- C9 witness: the very first accepted change publishes an empty
top-side snapshot together with the bottom-side snapshot. -/
theorem first_change_publishes_both_sides_witness :
    (consume cal0 dateOf0 gapFn0 engineA rawNeg).2.2 =
      [OutEvent.topHigh ⟨1, []⟩, OutEvent.topLow ⟨1, [("A", -5)]⟩] :=
  (first_change_publishes_both_sides cal0 dateOf0 gapFn0 engineA rawNeg
    (mkTicker "A") tickerANeg rfl rfl (Or.inl rfl) (by decide)
    (by decide)).trans (by decide)

/-- C7.  The bottom-side snapshot equals the spec reading — the states
with negative metric, sorted ascending (most negative first), truncated
to n — because filtering commutes with the stable ascending sort; the
kept list is sorted ascending and every published metric is negative. -/
theorem bottom_side_matches_spec (rtt : RealTimeTrading) (time : Time) :
    get_bottom_n_tickers time (rank_tickers rtt) rtt.n_bottom_tickers =
      bottomN_spec time rtt.tickers rtt.n_bottom_tickers ∧
    List.Sorted gapLE
      (((rank_tickers rtt).filter (fun t => decide (t.gap < 0))).take
        rtt.n_bottom_tickers) ∧
    ∀ pr ∈ (get_bottom_n_tickers time (rank_tickers rtt)
        rtt.n_bottom_tickers).symbols, pr.2 < 0 := by
  refine ⟨?_, ?_, ?_⟩
  · rw [get_bottom_n_tickers, bottomN_spec, rank_tickers,
      filter_insertionSort]
  · exact List.Pairwise.sublist (List.take_sublist _ _)
      (List.Pairwise.filter _ (List.sorted_insertionSort gapLE rtt.tickers))
  · intro pr hpr
    simp only [get_bottom_n_tickers, TopNSymbols.from_tickers] at hpr
    rcases List.mem_map.mp hpr with ⟨x, hx, rfl⟩
    exact of_decide_eq_true
      (List.mem_filter.mp (List.mem_of_mem_take hx)).2

/-- C7 witness: on a concrete mixed engine the code snapshot matches the
spec-worded snapshot and its entries are negative. -/
theorem bottom_side_matches_spec_witness :
    get_bottom_n_tickers 0 (rank_tickers engineMix) engineMix.n_bottom_tickers =
      bottomN_spec 0 engineMix.tickers engineMix.n_bottom_tickers ∧
    (("C", -7) : String × Int).2 < 0 :=
  ⟨(bottom_side_matches_spec engineMix 0).1,
    (bottom_side_matches_spec engineMix 0).2.2 ("C", -7) (by decide)⟩

/-- C10.  Ranking is a stable sort on the gap alone: two entries with
equal gap keep, in the ranked list and in both snapshots, the relative
order they had in the contract list fixed at construction (the snapshots
are built by order-preserving filter and truncation); determinism is
immediate since the whole pipeline is a pure function of the
configuration and event sequence. -/
theorem rank_stable_deterministic (rtt : RealTimeTrading)
    (a b : IntradayTicker) (time : Time) (n : Nat)
    (hnd : rtt.tickers.Nodup) (hgap : a.gap = b.gap)
    (hab : [a, b].Sublist rtt.tickers) :
    [a, b].Sublist (rank_tickers rtt) ∧
    (b ∈ ((rank_tickers rtt).filter (fun t => decide (0 < t.gap))).take n →
      [(a.symbol, a.gap), (b.symbol, b.gap)].Sublist
        (get_top_n_tickers time (rank_tickers rtt) n).symbols) ∧
    (b ∈ ((rank_tickers rtt).filter (fun t => decide (t.gap < 0))).take n →
      [(a.symbol, a.gap), (b.symbol, b.gap)].Sublist
        (get_bottom_n_tickers time (rank_tickers rtt) n).symbols) := by
  have hrank : [a, b].Sublist (rank_tickers rtt) :=
    List.pair_sublist_insertionSort (le_of_eq hgap) hab
  have hndr : (rank_tickers rtt).Nodup :=
    (List.perm_insertionSort gapLE rtt.tickers).nodup_iff.mpr hnd
  refine ⟨hrank, ?_, ?_⟩
  · intro hb
    have hbg : (0 : Int) < b.gap :=
      of_decide_eq_true (List.mem_filter.mp (List.mem_of_mem_take hb)).2
    have hag : (0 : Int) < a.gap := hgap ▸ hbg
    have hfil : [a, b].Sublist
        ((rank_tickers rtt).filter (fun t => decide (0 < t.gap))) := by
      have h2 := hrank.filter (fun t => decide (0 < t.gap))
      simpa [List.filter_cons, hag, hbg] using h2
    have hmap := (pair_sublist_take (hndr.filter _) hfil hb).map
      (fun t => (t.symbol, t.gap))
    simpa [get_top_n_tickers, TopNSymbols.from_tickers] using hmap
  · intro hb
    have hbg : b.gap < (0 : Int) :=
      of_decide_eq_true (List.mem_filter.mp (List.mem_of_mem_take hb)).2
    have hag : a.gap < (0 : Int) := hgap ▸ hbg
    have hfil : [a, b].Sublist
        ((rank_tickers rtt).filter (fun t => decide (t.gap < 0))) := by
      have h2 := hrank.filter (fun t => decide (t.gap < 0))
      simpa [List.filter_cons, hag, hbg] using h2
    have hmap := (pair_sublist_take (hndr.filter _) hfil hb).map
      (fun t => (t.symbol, t.gap))
    simpa [get_bottom_n_tickers, TopNSymbols.from_tickers] using hmap

/-- C10 witness: two equal-gap symbols appear in the top snapshot in
their contract-list order. -/
theorem rank_stable_deterministic_witness :
    [(("A" : String), (2 : Int)), ("B", 2)].Sublist
      (get_top_n_tickers 0 (rank_tickers engineEq) 2).symbols :=
  (rank_stable_deterministic engineEq ⟨"A", 0, none, 2, 0⟩
    ⟨"B", 0, none, 2, 0⟩ 0 2 (by decide) rfl (List.Sublist.refl _)).2.1
    (by decide)
